import Mathlib

/-!
Shallow embedding of `src/CochleaReg/CochleaReg.py` (SlicerCochlea's ACIR
registration module).  The module's own logic is orchestration: it computes
file paths, copies/renames files, rewrites a transform parameter text file,
invokes external binaries (elastix, transformix, an invert-transform helper)
and manipulates the Slicer scene.  We embed each method as a pure function
producing the ordered list of observable actions (an event trace) together
with its returned value; external subprocess results (exit codes, produced
files, converted points) enter as parameters.  File contents touched by the
module's own code (the transform parameter rewrite) are modelled exactly.
-/

namespace CochleaReg

/-- Join of a directory and a relative file name, as `os.path.join` does. -/
def pjoin (a b : String) : String := a ++ "/" ++ b

/-- Character-list test: the first list is an initial run of the second. -/
def isPrefList : List Char → List Char → Bool
  | [], _ => true
  | _ :: _, [] => false
  | a :: as, b :: bs => a == b && isPrefList as bs

/-- Character-list test: the first list occurs contiguously in the second. -/
def hasSubList : List Char → List Char → Bool
  | pat, [] => isPrefList pat []
  | pat, b :: bs => isPrefList pat (b :: bs) || hasSubList pat bs

/-- The Python substring test `pat in s` on strings. -/
def hasSub (pat s : String) : Bool := hasSubList pat.toList s.toList

/-- Drop a trailing `.ext` from a file-name character list (`os.path.splitext`). -/
def dropExtChars (l : List Char) : List Char :=
  if l.contains '.' then (((l.reverse).dropWhile (fun c => !(c == '.'))).drop 1).reverse
  else l

/-- Base file name without directory and without extension:
`os.path.splitext(os.path.basename(p))[0]`. -/
def basenameNoExt (s : String) : String :=
  String.mk (dropExtChars ((s.toList.reverse.takeWhile (fun c => !(c == '/'))).reverse))

/-- A converted IJK landmark point (`vsc.ptRAS2IJK` result), with integer
components as a shallow model of the numeric coordinates. -/
structure Pt3 where
  x : Int
  y : Int
  z : Int
deriving DecidableEq, Repr

/-- The `np.sum` of a point's components, used by the missing-point checks. -/
def Pt3.sum (p : Pt3) : Int := p.x + p.y + p.z

/-- Image dimensions, `fixedVolumeNode.GetImageData().GetDimensions()`. -/
structure Dim3 where
  d0 : Nat
  d1 : Nat
  d2 : Nat
deriving DecidableEq, Repr

/-- A physical 3-vector (image origin), rationals as a shallow model of doubles. -/
structure Vec3 where
  v0 : ℚ
  v1 : ℚ
  v2 : ℚ
deriving DecidableEq, Repr

/-- The nine entries of the flattened direction matrix, `vsc.getDirs(node)`;
`d0`, `d4`, `d8` are the diagonal of the row-major 3 by 3 matrix. -/
structure Dirs where
  d0 : ℚ
  d1 : ℚ
  d2 : ℚ
  d3 : ℚ
  d4 : ℚ
  d5 : ℚ
  d6 : ℚ
  d7 : ℚ
  d8 : ℚ
deriving DecidableEq, Repr

/-- Source line 365: `fixedOrg = [drs[0]*fOrg[0], drs[4]*fOrg[1], drs[8]*fOrg[2]]`. -/
def fixedOrgOf (drs : Dirs) (fOrg : Vec3) : Vec3 :=
  ⟨drs.d0 * fOrg.v0, drs.d4 * fOrg.v1, drs.d8 * fOrg.v2⟩

/-- Source line 373: the replacement Size line
`"(Size " + str(s0) + " " + str(s1) + " " + str(s2) + " )\n"`. -/
def sizeLine (s : Dim3) : String :=
  "(Size " ++ toString s.d0 ++ " " ++ toString s.d1 ++ " " ++ toString s.d2 ++ " )\n"

/-- Source line 376: the replacement Origin line
`"(Origin " + str(o0) + " " + str(o1) + " " + str(o2) + " )\n"`. -/
def originLine (o : Vec3) : String :=
  "(Origin " ++ toString o.v0 ++ " " ++ toString o.v1 ++ " " ++ toString o.v2 ++ " )\n"

/-- Source lines 371-378, the body of the rewrite loop: the Size test is made
on the incoming line, the Origin test on the possibly already replaced line. -/
def modifyLine (s : Dim3) (o : Vec3) (l : String) : String :=
  let l1 := if hasSub "(Size " l then sizeLine s else l
  let l2 := if hasSub "(Origin " l1 then originLine o else l1
  l2

/-- The whole rewrite of the transform parameter lines written to
`TransformParametersModInv.txt` (source lines 370-379). -/
def modifyTransform (s : Dim3) (o : Vec3) (parsLst : List String) : List String :=
  parsLst.map (modifyLine s o)

/-- A Slicer MRML node, reduced to what the module reads and writes: an object
identity, the current name (`GetName`/`SetName`) and the storage file name
(`GetStorageNode().GetFileName()`, `none` when there is no storage node). -/
structure Node where
  id : Nat
  name : String
  storage : Option String
deriving DecidableEq, Repr

/-- The VisSimCommon global variables the module reads (`vsc.vtVars`):
the default output folder, parameter file, image type suffix and tool paths
produced by `setGlobalVariables(0)`. -/
structure Env where
  defaultOutputPath : String
  defaultParsPath : String
  imgType : String
  elastixBin : String
  transformixBin : String
deriving DecidableEq, Repr

/-- One observable action of the module, in program order.  File and scene
actions carry the paths, node identities and (for the module's own write)
the exact lines involved; external binary invocations carry their arguments
and exit code. -/
inductive Event where
  | clearOutput (path : String)
  | printMsg (msg : String)
  | printPoint (p : Pt3)
  | saveNode (nodeId : Nat) (path : String)
  | copyFile (src dst : String)
  | runCrop (volId : Nat) (p : Pt3) (resultPath : String)
  | loadVolume (path : String) (newId : Nat)
  | loadTransform (path : String) (newId : Nat)
  | setNodeName (nodeId : Nat) (newName : String)
  | removeNode (nodeId : Nat)
  | runElastix (bin fixedImg movingImg outDir parsFile : String) (code : Int)
  | readFileLines (path : String) (lines : List String)
  | invertTransform (inTrans outTrans fixedImg : String) (code : Int)
  | writeFileLines (path : String) (lines : List String)
  | runTransformix (bin inImg outDir transFile : String) (code : Int)
  | renameFile (src dst : String)
  | removeTmpNodes (ids : List Nat)
deriving DecidableEq, Repr

/-- The values `initRun` leaves in instance attributes, plus its event trace. -/
structure InitData where
  outPath : String
  parsPath : String
  resTransPath : String
  resOldDefPath : String
  resDefPath : String
  transNodeName : String
  fixedPath : String
  movingPath : String
  fixedRegTmpPath : String
  movingRegTmpPath : String
  trace : List Event
deriving DecidableEq, Repr

/-- `CochleaRegLogic.initRun` (source lines 249-289).  `setGlobalVariables(0)`
is modelled as producing `env` with no observable action;
`removeOtputsFolderContents` — VisSimCommon code not under `src/`, modelled
from the spec: it empties the shared output folder (`clearOutput`).  Note the
source clears before the customised output path overrides `outputPath`, so
the cleared folder is always the default one. -/
def initRun (env : Env) (fixedNode movingNode : Node)
    (customOut customPars : Option String) : InitData :=
  let outPath := customOut.getD env.defaultOutputPath
  let parsPath := customPars.getD env.defaultParsPath
  let fixedPath := match fixedNode.storage with
    | some p => p
    | none => pjoin outPath (fixedNode.name ++ ".nrrd")
  let movingPath := match movingNode.storage with
    | some p => p
    | none => pjoin outPath (movingNode.name ++ ".nrrd")
  let fixedRegTmpPath := pjoin outPath (fixedNode.name ++ ".nrrd")
  let movingRegTmpPath := pjoin outPath (movingNode.name ++ ".nrrd")
  { outPath := outPath
    parsPath := parsPath
    resTransPath := pjoin outPath "TransformParameters.0.txt"
    resOldDefPath := pjoin outPath ("deformationField" ++ env.imgType)
    resDefPath := pjoin outPath (movingNode.name ++ "_dFld" ++ env.imgType)
    transNodeName := movingNode.name ++ "_Transform"
    fixedPath := fixedPath
    movingPath := movingPath
    fixedRegTmpPath := fixedRegTmpPath
    movingRegTmpPath := movingRegTmpPath
    trace :=
      [Event.clearOutput env.defaultOutputPath,
       Event.printMsg ("fixedVolumeNode  = " ++ fixedNode.name),
       Event.printMsg ("movingVolumeNode = " ++ movingNode.name),
       Event.printMsg ("outputPath       = " ++ outPath),
       Event.printMsg ("parsPath         = " ++ parsPath)] ++
      (match fixedNode.storage with
        | some _ => []
        | none => [Event.saveNode fixedNode.id fixedPath]) ++
      (match movingNode.storage with
        | some _ => []
        | none => [Event.saveNode movingNode.id movingPath]) ++
      [Event.copyFile fixedPath fixedRegTmpPath,
       Event.copyFile movingPath movingRegTmpPath] }

/-- The value returned by a run: the Python method returns the integer `-1`,
the boolean `False`, or a volume node. -/
inductive RunResult where
  | retInt (n : Int)
  | retBool (b : Bool)
  | retNode (n : Node)
deriving DecidableEq, Repr

/-- The inputs of `runAcir` and the external values it consumes: the volume
and fiducial nodes, the converted IJK points (`vsc.ptRAS2IJK` results), the
crop file paths returned by `vsc.runCropping`, the lines of the elastix
output transform file, the fixed volume geometry, and a base for the fresh
node identities allocated by the load calls. -/
structure AcirInput where
  fixedNode : Node
  movingNode : Node
  fixedFid : Node
  movingFid : Node
  fixedPoint : Pt3
  movingPoint : Pt3
  customOut : Option String
  customPars : Option String
  fixedCropPath : String
  movingCropPath : String
  parsLst : List String
  fixedSize : Dim3
  fOrg : Vec3
  drs : Dirs
  freshBase : Nat
deriving DecidableEq, Repr

/-- The single diagnostic print at source lines 407-411 (and 460-464): one
message when both external exit codes are zero, another otherwise. -/
def exitCodePrint (cTI cTR : Int) : Event :=
  if cTI == 0 && cTR == 0 then
    Event.printMsg "No error is reported during registeration ..."
  else
    Event.printMsg "error happened during registration "

/-- The trace prefix of `runAcir` up to and including the saving of the two
fiducial files (source lines 295-329), shared by all non-short-circuited
continuations. -/
def acirPreTrace (env : Env) (inp : AcirInput) : List Event :=
  let d := initRun env inp.fixedNode inp.movingNode inp.customOut inp.customPars
  d.trace ++
    [Event.printMsg "run fixed point: ============================",
     Event.printMsg inp.fixedNode.name,
     Event.printPoint inp.fixedPoint,
     Event.saveNode inp.fixedFid.id
       (pjoin d.outPath (inp.fixedNode.name ++ "_F_Cochlea_Pos.fcsv")),
     Event.printMsg "run moving point: ============================",
     Event.printMsg inp.movingNode.name,
     Event.printPoint inp.movingPoint,
     Event.saveNode inp.movingFid.id
       (pjoin d.outPath (inp.movingNode.name ++ "_M_Cochlea_Pos.fcsv"))]

/-- The success continuation of `runAcir` once all landmark checks have
passed (source lines 340-418): cropping, registration of the cropped images,
the transform-file manipulation, transformix on the full moving image copy,
renaming and loading of results, and node replacement. -/
def runAcirSuccess (env : Env) (inp : AcirInput) (cTI cInv cTR : Int) :
    List Event × RunResult :=
  let d := initRun env inp.fixedNode inp.movingNode inp.customOut inp.customPars
  let idCF := inp.freshBase
  let idCM := inp.freshBase + 1
  let idTr := inp.freshBase + 2
  let idReg := inp.freshBase + 3
  let idMov := inp.freshBase + 4
  let resTransPathOld := pjoin d.outPath "TransformParameters.0.txt"
  let resTransPathMod := pjoin d.outPath "TransformParametersMod.txt"
  let resTransPathModInv := pjoin d.outPath "TransformParametersModInv.txt"
  let registeredImagePath := pjoin d.outPath (inp.movingNode.name ++ "_Registered.nrrd")
  let regNode : Node := ⟨idReg, inp.movingNode.name ++ "_Registered", some registeredImagePath⟩
  (acirPreTrace env inp ++
    [Event.printPoint inp.fixedPoint,
     Event.printMsg "=================== Cropping =====================",
     Event.runCrop inp.fixedNode.id inp.fixedPoint inp.fixedCropPath,
     Event.loadVolume inp.fixedCropPath idCF,
     Event.setNodeName idCF (inp.fixedNode.name ++ "_F_Crop"),
     Event.runCrop inp.movingNode.id inp.movingPoint inp.movingCropPath,
     Event.loadVolume inp.movingCropPath idCM,
     Event.setNodeName idCM (inp.movingNode.name ++ "_M_Crop"),
     Event.printMsg "************  Register cropped moving image to cropped fixed image **********************",
     Event.runElastix env.elastixBin inp.fixedCropPath inp.movingCropPath d.outPath d.parsPath cTI,
     Event.copyFile resTransPathOld resTransPathMod,
     Event.copyFile resTransPathOld resTransPathModInv,
     Event.readFileLines resTransPathMod inp.parsLst,
     Event.invertTransform resTransPathMod resTransPathModInv d.fixedRegTmpPath cInv,
     Event.writeFileLines resTransPathModInv
       (modifyTransform inp.fixedSize (fixedOrgOf inp.drs inp.fOrg) inp.parsLst),
     Event.runTransformix env.transformixBin d.movingRegTmpPath d.outPath resTransPathModInv cTR,
     Event.renameFile d.resOldDefPath d.resDefPath,
     Event.renameFile (pjoin d.outPath "result.nrrd") registeredImagePath,
     Event.printMsg "************  Load deformation field Transform  **********************",
     Event.loadTransform d.resDefPath idTr,
     Event.setNodeName idTr d.transNodeName,
     Event.loadVolume registeredImagePath idReg,
     Event.printMsg registeredImagePath,
     Event.setNodeName idReg (inp.movingNode.name ++ "_Registered"),
     Event.removeNode inp.movingNode.id,
     Event.loadVolume d.movingPath idMov,
     Event.setNodeName idMov (basenameNoExt d.movingPath),
     exitCodePrint cTI cTR,
     Event.removeTmpNodes [idCF, idCM],
     Event.printMsg "================= Cochlea registration is complete  ====================="],
   RunResult.retNode regNode)

/-- `CochleaRegLogic.runAcir` (source lines 293-419), as its event trace and
return value, given the exit codes of elastix (`cTI`), of the invert-transform
helper (`cInv`, assigned to `cTR` at line 369 and immediately overwritten at
line 381) and of transformix (`cTR`).  External VisSimCommon helpers not under
`src/` appear as opaque events; `removeTmpsFiles` is modelled from the spec
and its call-site comment as removing the run's temporary nodes, i.e. the two
cropped volumes loaded by this method.  Note that the source tests
`np.sum(fixedPoint)` again at line 324 where the moving point is reported,
and that line 370 reopens `TransformParametersModInv.txt` for writing after
the invert-transform call targeted the same file. -/
def runAcir (env : Env) (inp : AcirInput) (cTI cInv cTR : Int) :
    List Event × RunResult :=
  let d := initRun env inp.fixedNode inp.movingNode inp.customOut inp.customPars
  let tr0 := d.trace ++
    [Event.printMsg "run fixed point: ============================",
     Event.printMsg inp.fixedNode.name,
     Event.printPoint inp.fixedPoint]
  if inp.fixedPoint.sum == 0 then
    (tr0 ++ [Event.printMsg "Error: select cochlea fixed point"], RunResult.retInt (-1))
  else
    let tr1 := tr0 ++
      [Event.saveNode inp.fixedFid.id
         (pjoin d.outPath (inp.fixedNode.name ++ "_F_Cochlea_Pos.fcsv")),
       Event.printMsg "run moving point: ============================",
       Event.printMsg inp.movingNode.name,
       Event.printPoint inp.movingPoint]
    if inp.fixedPoint.sum == 0 then
      (tr1 ++ [Event.printMsg "Error: select cochlea moving point"], RunResult.retInt (-1))
    else
      let tr2 := tr1 ++
        [Event.saveNode inp.movingFid.id
           (pjoin d.outPath (inp.movingNode.name ++ "_M_Cochlea_Pos.fcsv"))]
      if inp.fixedPoint.sum == 0 && inp.movingPoint.sum == 0 then
        (tr2 ++ [Event.printMsg "Error: select cochlea points in fixed and moving images"],
         RunResult.retBool false)
      else
        runAcirSuccess env inp cTI cInv cTR

/-- The inputs of the no-cropping method `run`. -/
structure RunInput where
  fixedNode : Node
  movingNode : Node
  customOut : Option String
  customPars : Option String
  freshBase : Nat
deriving DecidableEq, Repr

/-- `CochleaRegLogic.run` (source lines 421-472), the no-cropping path:
elastix on the two copied full images, transformix with the unmodified
`TransformParameters.0.txt`, then the same renaming, loading and node
replacement as `runAcir`.  `removeTmpsFiles` is modelled from the spec as
removing the run's temporary nodes; this path creates none. -/
def run (env : Env) (inp : RunInput) (cTI cTR : Int) : List Event × RunResult :=
  let d := initRun env inp.fixedNode inp.movingNode inp.customOut inp.customPars
  let idTr := inp.freshBase
  let idReg := inp.freshBase + 1
  let idMov := inp.freshBase + 2
  let registeredImagePath := pjoin d.outPath (inp.movingNode.name ++ "_Registered.nrrd")
  let regNode : Node := ⟨idReg, inp.movingNode.name ++ "_Registered", some registeredImagePath⟩
  let tr := d.trace ++
    [Event.printMsg "************  Register  moving image to  fixed image **********************",
     Event.runElastix env.elastixBin d.fixedRegTmpPath d.movingRegTmpPath d.outPath d.parsPath cTI,
     Event.runTransformix env.transformixBin d.movingRegTmpPath d.outPath d.resTransPath cTR,
     Event.renameFile d.resOldDefPath d.resDefPath,
     Event.renameFile (pjoin d.outPath "result.nrrd") registeredImagePath,
     Event.printMsg "************  Load deformation field Transform  **********************",
     Event.loadTransform d.resDefPath idTr,
     Event.setNodeName idTr d.transNodeName,
     Event.loadVolume registeredImagePath idReg,
     Event.printMsg registeredImagePath,
     Event.setNodeName idReg (inp.movingNode.name ++ "_Registered"),
     Event.removeNode inp.movingNode.id,
     Event.loadVolume d.movingPath idMov,
     Event.setNodeName idMov (basenameNoExt d.movingPath),
     exitCodePrint cTI cTR,
     Event.removeTmpNodes [],
     Event.printMsg "================= Cochlea registration is complete  ====================="]
  (tr, RunResult.retNode regNode)

/-- Effect of one event on the Slicer scene, modelled as a node list.
Loads append a node named after the file (and storing its path), `SetName`
renames by node identity, `RemoveNode` deletes by identity.  Modelled from
the spec for the VisSimCommon part: `removeTmpsFiles` removes the run's
temporary nodes, whose identities the event carries. -/
def applyEvent (sc : List Node) : Event → List Node
  | Event.loadVolume p i => sc ++ [⟨i, basenameNoExt p, some p⟩]
  | Event.loadTransform p i => sc ++ [⟨i, basenameNoExt p, some p⟩]
  | Event.setNodeName i nm => sc.map (fun n => if n.id == i then { n with name := nm } else n)
  | Event.removeNode i => sc.filter (fun n => !(n.id == i))
  | Event.removeTmpNodes ids => sc.filter (fun n => !(ids.contains n.id))
  | _ => sc

/-- Run a whole trace against a scene. -/
def runScene (sc : List Node) (tr : List Event) : List Node := tr.foldl applyEvent sc

/-- Which logic method the Run button invokes. -/
inductive RunChoice where
  | fullRun
  | acirRun
deriving DecidableEq, Repr

/-- The dispatch in `CochleaRegWidget.onApplyBtnClick` (source lines 224-227):
`logic.run` when either fiducial node is `None`, else `logic.runAcir`. -/
def onApplyBtnClick (fixedFid movingFid : Option Node) : RunChoice :=
  if fixedFid.isNone || movingFid.isNone then RunChoice.fullRun else RunChoice.acirRun

/-- The arguments `CochleaRegTest.runTest` ends up passing to
`testSlicerCochleaRegistration`. -/
structure TestArgs where
  fixedImgPath : String
  movingImgPath : String
  fixedPoint : List Int
  movingPoint : List Int
deriving DecidableEq, Repr

/-- The cache path of the first downloaded sample volume in `runTest`. -/
def runTestDownloadedFixedPath (cacheDir : String) : String :=
  pjoin cacheDir "P100001_DV_L_a.nrrd"

/-- The cache path of the second downloaded sample volume in `runTest`. -/
def runTestDownloadedMovingPath (cacheDir : String) : String :=
  pjoin cacheDir "P100001_DV_L_b.nrrd"

/-- `CochleaRegTest.runTest` (source lines 484-516): the two sample volumes
are downloaded into the cache directory and their nodes removed again, and
the local path and point variables are then reassigned (source lines 509-512)
before `testSlicerCochleaRegistration` is called. -/
def runTestArgs (cacheDir : String) : TestArgs :=
  let fixedImgPathDownloaded := runTestDownloadedFixedPath cacheDir
  let movingImgPathDownloaded := runTestDownloadedMovingPath cacheDir
  let fixedImgPath := "/media/ibr/h25_2TB_C/ia_work/Cochlea2020/vsReg/srcImages/P100051_MR.nrrd"
  let movingImgPath := "/media/ibr/h25_2TB_C/ia_work/Cochlea2020/vsReg/srcImages/P100051_DV_R_a.nrrd"
  let _ := fixedImgPathDownloaded
  let _ := movingImgPathDownloaded
  { fixedImgPath := fixedImgPath
    movingImgPath := movingImgPath
    fixedPoint := [165, 240, 34]
    movingPoint := [348, 230, 69] }

/-- Recognises the output-folder clearing action. -/
def Event.isClear : Event → Bool
  | Event.clearOutput _ => true
  | _ => false

/-- Recognises the invert-transform helper invocation. -/
def Event.isInvertCall : Event → Bool
  | Event.invertTransform _ _ _ _ => true
  | _ => false

/-- Recognises the module's own write of transform parameter lines. -/
def Event.isParamWrite : Event → Bool
  | Event.writeFileLines _ _ => true
  | _ => false

/-- Recognises a transformix invocation. -/
def Event.isTransformixCall : Event → Bool
  | Event.runTransformix _ _ _ _ _ => true
  | _ => false

/-- Recognises a cropping or registration invocation. -/
def Event.isCropOrElastix : Event → Bool
  | Event.runCrop _ _ _ => true
  | Event.runElastix _ _ _ _ _ _ => true
  | _ => false

/-- Index of the first event satisfying a predicate. -/
def firstPos (p : Event → Bool) : List Event → Option Nat
  | [] => none
  | e :: tr => if p e then some 0 else (firstPos p tr).map (fun i => i + 1)

/-- A sample environment for concrete evaluations. -/
def exEnv : Env :=
  { defaultOutputPath := "/vst/outputs"
    defaultParsPath := "/vst/pars.txt"
    imgType := ".nrrd"
    elastixBin := "/vst/elastix"
    transformixBin := "/vst/transformix" }

/-- A sample fixed volume node. -/
def exFixedNode : Node := ⟨1, "FixedImg", some "/data/FixedImg.nrrd"⟩

/-- A sample moving volume node. -/
def exMovingNode : Node := ⟨2, "MovingImg", some "/data/MovingImg.nrrd"⟩

/-- A sample complete input on which `runAcir` reaches the success path. -/
def exInp : AcirInput :=
  { fixedNode := exFixedNode
    movingNode := exMovingNode
    fixedFid := ⟨3, "F_fid", none⟩
    movingFid := ⟨4, "M_fid", none⟩
    fixedPoint := ⟨220, 242, 78⟩
    movingPoint := ⟨196, 217, 93⟩
    customOut := none
    customPars := none
    fixedCropPath := "/vst/outputs/FixedImg_F_Crop.nrrd"
    movingCropPath := "/vst/outputs/MovingImg_M_Crop.nrrd"
    parsLst := ["(Transform BSplineTransform)\n", "(Size 60 60 60 )\n", "(Origin -4 -5 -6 )\n"]
    fixedSize := ⟨485, 485, 121⟩
    fOrg := ⟨-30, -30, -30⟩
    drs := ⟨1, 0, 0, 0, 1, 0, 0, 0, -1⟩
    freshBase := 10 }

/-- A sample input for the no-cropping method. -/
def exRunInp : RunInput :=
  { fixedNode := exFixedNode
    movingNode := exMovingNode
    customOut := none
    customPars := none
    freshBase := 10 }

/-- A sample input whose moving point is missing while the fixed one is set. -/
def exInpMissingMoving : AcirInput := { exInp with movingPoint := ⟨0, 0, 0⟩ }

/-- A sample input where both landmark points are missing. -/
def exInpBothZero : AcirInput :=
  { exInp with fixedPoint := ⟨0, 0, 0⟩, movingPoint := ⟨0, 0, 0⟩ }

/-- A sample input whose fixed landmark point is missing. -/
def exInpMissingFixed : AcirInput := { exInp with fixedPoint := ⟨0, 0, 0⟩ }

/-- The order claim C1 states for the success path of `runAcir`: the geometry
rewrite of the transform file happens strictly before the invert-transform
invocation. -/
def rewriteBeforeInvert (tr : List Event) : Prop :=
  ∃ i j, firstPos Event.isParamWrite tr = some i ∧
    firstPos Event.isInvertCall tr = some j ∧ i < j

/-- One line of claim C2 as stated: a line containing `"(Size "` comes out as
the Size line, a line containing `"(Origin "` comes out as the Origin line,
and any other line is written through unchanged. -/
def c2LineStated (s : Dim3) (o : Vec3) (li lo : String) : Prop :=
  (hasSub "(Size " li = true → lo = sizeLine s) ∧
  (hasSub "(Origin " li = true → lo = originLine o) ∧
  (hasSub "(Size " li = false → hasSub "(Origin " li = false → lo = li)

/-- Claim C2 as stated, line by line over the whole file. -/
def c2Stated (s : Dim3) (o : Vec3) (inp out : List String) : Prop :=
  List.Forall₂ (c2LineStated s o) inp out

/-- A line containing both `"(Size "` and `"(Origin "`. -/
def c2BadLine : String := "(Size 10 10 10 (Origin 5 5 5 )"

/-- Events that cannot affect the presence or the record of node `n`. -/
def untouchedBy (n : Node) : Event → Prop
  | Event.setNodeName i nm => n.id ≠ i ∨ nm = n.name
  | Event.removeNode i => n.id ≠ i
  | Event.removeTmpNodes ids => ids.contains n.id = false
  | _ => True

/-- No node of the scene carries identity `i`. -/
def NoId (i : Nat) (sc : List Node) : Prop := ∀ n ∈ sc, n.id ≠ i

/-- Events whose load actions do not allocate identity `i`. -/
def loadsAvoid (i : Nat) : Event → Prop
  | Event.loadVolume _ j => j ≠ i
  | Event.loadTransform _ j => j ≠ i
  | _ => True

example : hasSub "(Size " "(Size 100 100 100 )" = true := by decide
example : hasSub "(Origin " "(Size 100 100 100 )" = false := by decide
example : modifyLine ⟨4, 5, 6⟩ ⟨1, 2, 3⟩ "(Size 9 9 9 )" = "(Size 4 5 6 )\n" := by decide
example : modifyLine ⟨4, 5, 6⟩ ⟨1, 2, 3⟩ "(Origin 0 0 0 )" = "(Origin 1 2 3 )\n" := by decide
example : modifyLine ⟨4, 5, 6⟩ ⟨1, 2, 3⟩ "(Spacing 1 1 1 )" = "(Spacing 1 1 1 )" := by decide
example : basenameNoExt "/a/b/c/P100001_DV_L_a.nrrd" = "P100001_DV_L_a" := by decide

/-- When the fixed landmark sum is non-zero, `runAcir` takes the success path:
none of the three short-circuit checks (all of which test the fixed point sum,
the last one conjoined with the moving point sum) can fire. -/
lemma runAcir_eq_success (env : Env) (inp : AcirInput) (cTI cInv cTR : Int)
    (hf : inp.fixedPoint.sum ≠ 0) :
    runAcir env inp cTI cInv cTR = runAcirSuccess env inp cTI cInv cTR := by
  have hb : (inp.fixedPoint.sum == 0) = false := by
    simpa using hf
  unfold runAcir
  simp [hb]

@[simp] lemma isClear_exitCodePrint (a b : Int) : Event.isClear (exitCodePrint a b) = false := by
  unfold exitCodePrint
  split <;> rfl

@[simp] lemma isInvertCall_exitCodePrint (a b : Int) :
    Event.isInvertCall (exitCodePrint a b) = false := by
  unfold exitCodePrint
  split <;> rfl

@[simp] lemma isParamWrite_exitCodePrint (a b : Int) :
    Event.isParamWrite (exitCodePrint a b) = false := by
  unfold exitCodePrint
  split <;> rfl

@[simp] lemma isTransformixCall_exitCodePrint (a b : Int) :
    Event.isTransformixCall (exitCodePrint a b) = false := by
  unfold exitCodePrint
  split <;> rfl

@[simp] lemma isCropOrElastix_exitCodePrint (a b : Int) :
    Event.isCropOrElastix (exitCodePrint a b) = false := by
  unfold exitCodePrint
  split <;> rfl

/-- Claim C8: when the Run button is clicked with either fiducial node unset,
the widget dispatches to the full-image path `logic.run` (no cropping) instead
of aborting; `logic.runAcir` is chosen exactly when both fiducials are set. -/
theorem C8_dispatch_full_run_when_fiducial_missing (f m : Option Node) :
    (onApplyBtnClick none m = RunChoice.fullRun) ∧
    (onApplyBtnClick f none = RunChoice.fullRun) ∧
    (∀ a b : Node, onApplyBtnClick (some a) (some b) = RunChoice.acirRun) := by
  refine ⟨rfl, ?_, fun a b => rfl⟩
  cases f <;> rfl

/-- Claim C5: in every invocation of `run` and of `runAcir`, whichever branch
is taken, the very first action of the whole trace is the clearing of the
shared (default) output folder performed inside `initRun`, and it is the only
clearing action, so it precedes every file written during the run. -/
theorem C5_output_folder_cleared_first (env : Env) (inp : AcirInput) (rinp : RunInput)
    (cTI cInv cTR c1 c2 : Int) :
    ((runAcir env inp cTI cInv cTR).1.head? = some (Event.clearOutput env.defaultOutputPath) ∧
     (runAcir env inp cTI cInv cTR).1.countP Event.isClear = 1) ∧
    ((run env rinp c1 c2).1.head? = some (Event.clearOutput env.defaultOutputPath) ∧
     (run env rinp c1 c2).1.countP Event.isClear = 1) := by
  constructor
  · unfold runAcir
    split
    · rcases hfs : inp.fixedNode.storage with _ | fp <;>
        rcases hms : inp.movingNode.storage with _ | mp <;>
          simp [initRun, hfs, hms, Event.isClear, List.countP_append, List.countP_cons]
    · next h =>
      rcases hfs : inp.fixedNode.storage with _ | fp <;>
        rcases hms : inp.movingNode.storage with _ | mp <;>
          cases hc : (cTI == 0 && cTR == 0) <;>
            simp [h, runAcirSuccess, acirPreTrace, initRun, hfs, hms, hc, exitCodePrint,
              Event.isClear, List.countP_append, List.countP_cons]
  · rcases hfs : rinp.fixedNode.storage with _ | fp <;>
      rcases hms : rinp.movingNode.storage with _ | mp <;>
        cases hc : (c1 == 0 && c2 == 0) <;>
          simp [run, initRun, hfs, hms, hc, exitCodePrint, Event.isClear,
            List.countP_append, List.countP_cons]

/-- Claim C4: in every completed run of `run` or `runAcir`, the external exit
codes are only compared with zero and logged: whatever the codes, the return
value is the same registered moving volume node (the code-dependent action is
one diagnostic print, whose message is determined by whether both codes are
zero). -/
theorem C4_exit_codes_only_logged (env : Env) (inp : AcirInput) (rinp : RunInput)
    (cTI cInv cTR c1 c2 : Int) (hf : inp.fixedPoint.sum ≠ 0) :
    ((runAcir env inp cTI cInv cTR).2 = (runAcir env inp 0 0 0).2 ∧
     (∃ n : Node, (runAcir env inp cTI cInv cTR).2 = RunResult.retNode n ∧
       n.name = inp.movingNode.name ++ "_Registered") ∧
     exitCodePrint cTI cTR ∈ (runAcir env inp cTI cInv cTR).1) ∧
    ((run env rinp c1 c2).2 = (run env rinp 0 0).2 ∧
     (∃ n : Node, (run env rinp c1 c2).2 = RunResult.retNode n ∧
       n.name = rinp.movingNode.name ++ "_Registered") ∧
     exitCodePrint c1 c2 ∈ (run env rinp c1 c2).1) ∧
    (∀ a b : Int, ¬(a = 0 ∧ b = 0) →
       exitCodePrint a b = Event.printMsg "error happened during registration ") ∧
    (∀ a b : Int, a = 0 ∧ b = 0 →
       exitCodePrint a b = Event.printMsg "No error is reported during registeration ...") := by
  refine ⟨⟨?_, ?_, ?_⟩, ⟨?_, ?_, ?_⟩, ?_, ?_⟩
  · rw [runAcir_eq_success env inp cTI cInv cTR hf, runAcir_eq_success env inp 0 0 0 hf]
    rfl
  · rw [runAcir_eq_success env inp cTI cInv cTR hf]
    exact ⟨_, rfl, rfl⟩
  · rw [runAcir_eq_success env inp cTI cInv cTR hf]
    simp [runAcirSuccess]
  · rfl
  · exact ⟨_, rfl, rfl⟩
  · simp [run]
  · intro a b hab
    unfold exitCodePrint
    split
    · next hcond => exact absurd (by simpa using hcond) hab
    · rfl
  · rintro a b ⟨ha, hb⟩
    subst ha
    subst hb
    rfl

/-- Witness for C4 at a concrete successful input with non-zero exit codes. -/
theorem C4_witness :
    exInp.fixedPoint.sum ≠ 0 ∧
    (runAcir exEnv exInp 1 0 2).2 = (runAcir exEnv exInp 0 0 0).2 :=
  ⟨by decide, (C4_exit_codes_only_logged exEnv exInp exRunInp 1 0 2 3 4 (by decide)).1.1⟩

/-- Claim C6: the results of a successful run are named deterministically from
the moving volume's name: the deformation field is renamed to
`<movingName>_dFld<imgType>` and loaded as a transform node named
`<movingName>_Transform`; `result.nrrd` is renamed to
`<movingName>_Registered.nrrd` and loaded as a volume node named
`<movingName>_Registered`, which is the returned value — in `runAcir` and in
`run` alike. -/
theorem C6_deterministic_result_naming (env : Env) (inp : AcirInput) (rinp : RunInput)
    (cTI cInv cTR c1 c2 : Int) (hf : inp.fixedPoint.sum ≠ 0) :
    (Event.renameFile (pjoin (inp.customOut.getD env.defaultOutputPath) ("deformationField" ++ env.imgType))
        (pjoin (inp.customOut.getD env.defaultOutputPath) (inp.movingNode.name ++ "_dFld" ++ env.imgType))
        ∈ (runAcir env inp cTI cInv cTR).1 ∧
     Event.loadTransform (pjoin (inp.customOut.getD env.defaultOutputPath) (inp.movingNode.name ++ "_dFld" ++ env.imgType))
        (inp.freshBase + 2) ∈ (runAcir env inp cTI cInv cTR).1 ∧
     Event.setNodeName (inp.freshBase + 2) (inp.movingNode.name ++ "_Transform")
        ∈ (runAcir env inp cTI cInv cTR).1 ∧
     Event.renameFile (pjoin (inp.customOut.getD env.defaultOutputPath) "result.nrrd")
        (pjoin (inp.customOut.getD env.defaultOutputPath) (inp.movingNode.name ++ "_Registered.nrrd"))
        ∈ (runAcir env inp cTI cInv cTR).1 ∧
     Event.loadVolume (pjoin (inp.customOut.getD env.defaultOutputPath) (inp.movingNode.name ++ "_Registered.nrrd"))
        (inp.freshBase + 3) ∈ (runAcir env inp cTI cInv cTR).1 ∧
     Event.setNodeName (inp.freshBase + 3) (inp.movingNode.name ++ "_Registered")
        ∈ (runAcir env inp cTI cInv cTR).1 ∧
     (runAcir env inp cTI cInv cTR).2 =
       RunResult.retNode ⟨inp.freshBase + 3, inp.movingNode.name ++ "_Registered",
         some (pjoin (inp.customOut.getD env.defaultOutputPath) (inp.movingNode.name ++ "_Registered.nrrd"))⟩) ∧
    (Event.renameFile (pjoin (rinp.customOut.getD env.defaultOutputPath) ("deformationField" ++ env.imgType))
        (pjoin (rinp.customOut.getD env.defaultOutputPath) (rinp.movingNode.name ++ "_dFld" ++ env.imgType))
        ∈ (run env rinp c1 c2).1 ∧
     Event.loadTransform (pjoin (rinp.customOut.getD env.defaultOutputPath) (rinp.movingNode.name ++ "_dFld" ++ env.imgType))
        rinp.freshBase ∈ (run env rinp c1 c2).1 ∧
     Event.setNodeName rinp.freshBase (rinp.movingNode.name ++ "_Transform")
        ∈ (run env rinp c1 c2).1 ∧
     Event.renameFile (pjoin (rinp.customOut.getD env.defaultOutputPath) "result.nrrd")
        (pjoin (rinp.customOut.getD env.defaultOutputPath) (rinp.movingNode.name ++ "_Registered.nrrd"))
        ∈ (run env rinp c1 c2).1 ∧
     Event.loadVolume (pjoin (rinp.customOut.getD env.defaultOutputPath) (rinp.movingNode.name ++ "_Registered.nrrd"))
        (rinp.freshBase + 1) ∈ (run env rinp c1 c2).1 ∧
     Event.setNodeName (rinp.freshBase + 1) (rinp.movingNode.name ++ "_Registered")
        ∈ (run env rinp c1 c2).1 ∧
     (run env rinp c1 c2).2 =
       RunResult.retNode ⟨rinp.freshBase + 1, rinp.movingNode.name ++ "_Registered",
         some (pjoin (rinp.customOut.getD env.defaultOutputPath) (rinp.movingNode.name ++ "_Registered.nrrd"))⟩) := by
  constructor
  · rw [runAcir_eq_success env inp cTI cInv cTR hf]
    refine ⟨?_, ?_, ?_, ?_, ?_, ?_, rfl⟩ <;> simp [runAcirSuccess, initRun]
  · refine ⟨?_, ?_, ?_, ?_, ?_, ?_, rfl⟩ <;> simp [run, initRun]

/-- Witness for C6 at a concrete successful input. -/
theorem C6_witness :
    exInp.fixedPoint.sum ≠ 0 ∧
    (runAcir exEnv exInp 0 0 0).2 =
      RunResult.retNode ⟨13, "MovingImg_Registered", some "/vst/outputs/MovingImg_Registered.nrrd"⟩ :=
  ⟨by decide,
   (C6_deterministic_result_naming exEnv exInp exRunInp 0 0 0 0 0 (by decide)).1.2.2.2.2.2.2⟩

/-- Claim C3 (code bug at source line 324): a missing fixed point does
short-circuit `runAcir` with the printed message, but a missing moving point
with the fixed point present does not: because the second check re-tests the
fixed point's sum, the run goes on to cropping and registration, prints no
moving-point error at all, and returns the registered node. -/
theorem C3_missing_moving_point_check_reads_fixed_point :
    exInpMissingMoving.fixedPoint.sum ≠ 0 ∧
    exInpMissingMoving.movingPoint.sum = 0 ∧
    Event.printMsg "Error: select cochlea moving point" ∉ (runAcir exEnv exInpMissingMoving 0 0 0).1 ∧
    Event.printMsg "Error: select cochlea points in fixed and moving images"
      ∉ (runAcir exEnv exInpMissingMoving 0 0 0).1 ∧
    (firstPos Event.isCropOrElastix (runAcir exEnv exInpMissingMoving 0 0 0).1).isSome = true ∧
    (runAcir exEnv exInpMissingMoving 0 0 0).2 =
      RunResult.retNode ⟨13, "MovingImg_Registered", some "/vst/outputs/MovingImg_Registered.nrrd"⟩ ∧
    (runAcir exEnv exInpMissingFixed 0 0 0).2 = RunResult.retInt (-1) ∧
    Event.printMsg "Error: select cochlea fixed point" ∈ (runAcir exEnv exInpMissingFixed 0 0 0).1 := by
  exact ⟨by decide, by decide, by decide, by decide, by decide, rfl, rfl, by decide⟩

/-- Claim C9 counterexample: on an input whose two landmark sums are both
zero, `runAcir` returns the integer `-1` (the fixed-point check fires first),
not the boolean `False` the claim states. -/
theorem C9_counterexample_both_points_zero :
    exInpBothZero.fixedPoint.sum = 0 ∧
    exInpBothZero.movingPoint.sum = 0 ∧
    (runAcir exEnv exInpBothZero 0 0 0).2 = RunResult.retInt (-1) ∧
    (runAcir exEnv exInpBothZero 0 0 0).2 ≠ RunResult.retBool false := by
  exact ⟨by decide, by decide, rfl, by decide⟩

/-- Claim C9 (amended): the failure is indeed not atomic — by the time the
check runs, the output folder has been cleared and both input images copied
into it — and the run returns `-1` whenever the fixed point's sum is zero
(in particular also when both sums are zero); the `False`-returning branch is
unreachable, so no invocation of `runAcir` ever returns the boolean `False`.
In neither failure case is a volume node returned. -/
theorem C9_missing_point_not_atomic_returns_minus_one (env : Env) (inp : AcirInput)
    (cTI cInv cTR : Int) (h : inp.fixedPoint.sum = 0) :
    (runAcir env inp cTI cInv cTR).2 = RunResult.retInt (-1) ∧
    Event.clearOutput env.defaultOutputPath ∈ (runAcir env inp cTI cInv cTR).1 ∧
    Event.copyFile (initRun env inp.fixedNode inp.movingNode inp.customOut inp.customPars).fixedPath
      (initRun env inp.fixedNode inp.movingNode inp.customOut inp.customPars).fixedRegTmpPath
      ∈ (runAcir env inp cTI cInv cTR).1 ∧
    Event.copyFile (initRun env inp.fixedNode inp.movingNode inp.customOut inp.customPars).movingPath
      (initRun env inp.fixedNode inp.movingNode inp.customOut inp.customPars).movingRegTmpPath
      ∈ (runAcir env inp cTI cInv cTR).1 ∧
    Event.printMsg "Error: select cochlea fixed point" ∈ (runAcir env inp cTI cInv cTR).1 ∧
    (∀ (inp2 : AcirInput) (a b c : Int), (runAcir env inp2 a b c).2 ≠ RunResult.retBool false) := by
  have hb : (inp.fixedPoint.sum == 0) = true := by simpa using h
  refine ⟨?_, ?_, ?_, ?_, ?_, ?_⟩
  · unfold runAcir
    simp [hb]
  · unfold runAcir
    rcases hfs : inp.fixedNode.storage with _ | fp <;>
      rcases hms : inp.movingNode.storage with _ | mp <;>
        simp [hb, initRun, hfs, hms]
  · unfold runAcir
    rcases hfs : inp.fixedNode.storage with _ | fp <;>
      rcases hms : inp.movingNode.storage with _ | mp <;>
        simp [hb, initRun, hfs, hms]
  · unfold runAcir
    rcases hfs : inp.fixedNode.storage with _ | fp <;>
      rcases hms : inp.movingNode.storage with _ | mp <;>
        simp [hb, initRun, hfs, hms]
  · unfold runAcir
    simp [hb]
  · intro inp2 a b c
    by_cases h2 : inp2.fixedPoint.sum = 0
    · have hb2 : (inp2.fixedPoint.sum == 0) = true := by simpa using h2
      unfold runAcir
      simp [hb2]
    · have hb2 : (inp2.fixedPoint.sum == 0) = false := by simpa using h2
      unfold runAcir
      simp [hb2, runAcirSuccess]

/-- Witness for C9 at a concrete input with a missing fixed point. -/
theorem C9_witness :
    exInpMissingFixed.fixedPoint.sum = 0 ∧
    (runAcir exEnv exInpMissingFixed 0 0 0).2 = RunResult.retInt (-1) :=
  ⟨by decide, (C9_missing_point_not_atomic_returns_minus_one exEnv exInpMissingFixed 0 0 0 (by decide)).1⟩

/-- Claim C1 counterexample: on a concrete successful input, the
invert-transform invocation (position 28 of the trace) comes strictly before
the geometry rewrite of the transform file (position 29), so the claimed
order — rewrite first, invert afterwards — is false. -/
theorem C1_counterexample_invert_precedes_rewrite :
    firstPos Event.isInvertCall (runAcir exEnv exInp 0 0 0).1 = some 28 ∧
    firstPos Event.isParamWrite (runAcir exEnv exInp 0 0 0).1 = some 29 ∧
    ¬ rewriteBeforeInvert (runAcir exEnv exInp 0 0 0).1 := by
  refine ⟨by decide, by decide, ?_⟩
  rintro ⟨i, j, hi, hj, hij⟩
  have h1 : firstPos Event.isParamWrite (runAcir exEnv exInp 0 0 0).1 = some 29 := by decide
  have h2 : firstPos Event.isInvertCall (runAcir exEnv exInp 0 0 0).1 = some 28 := by decide
  rw [h1] at hi
  rw [h2] at hj
  cases hi
  cases hj
  omega

/-- Claim C1 (amended): on the success path, `runAcir` first inverts the
unmodified copy of the registration transform into the ModInv file, and only
afterwards rewrites the geometry fields by overwriting that same ModInv file
with the registration transform's lines with Size and Origin replaced; the
transformix call then applies that file — the rewritten, non-inverted
transform — to `<outputPath>/<movingName>.nrrd`, the file the original,
uncropped moving volume was copied to, not to the cropped moving image.
Each of the three actions occurs exactly once in the trace. -/
theorem C1_invert_then_rewrite_then_apply (env : Env) (inp : AcirInput)
    (cTI cInv cTR : Int) (hf : inp.fixedPoint.sum ≠ 0) :
    (∃ A B C D : List Event,
      (runAcir env inp cTI cInv cTR).1 =
        A ++ Event.invertTransform
              (pjoin (inp.customOut.getD env.defaultOutputPath) "TransformParametersMod.txt")
              (pjoin (inp.customOut.getD env.defaultOutputPath) "TransformParametersModInv.txt")
              (pjoin (inp.customOut.getD env.defaultOutputPath) (inp.fixedNode.name ++ ".nrrd")) cInv ::
          (B ++ Event.writeFileLines
              (pjoin (inp.customOut.getD env.defaultOutputPath) "TransformParametersModInv.txt")
              (modifyTransform inp.fixedSize (fixedOrgOf inp.drs inp.fOrg) inp.parsLst) ::
            (C ++ Event.runTransformix env.transformixBin
                (pjoin (inp.customOut.getD env.defaultOutputPath) (inp.movingNode.name ++ ".nrrd"))
                (inp.customOut.getD env.defaultOutputPath)
                (pjoin (inp.customOut.getD env.defaultOutputPath) "TransformParametersModInv.txt") cTR :: D))) ∧
    (runAcir env inp cTI cInv cTR).1.countP Event.isInvertCall = 1 ∧
    (runAcir env inp cTI cInv cTR).1.countP Event.isParamWrite = 1 ∧
    (runAcir env inp cTI cInv cTR).1.countP Event.isTransformixCall = 1 ∧
    Event.copyFile (initRun env inp.fixedNode inp.movingNode inp.customOut inp.customPars).movingPath
      (pjoin (inp.customOut.getD env.defaultOutputPath) (inp.movingNode.name ++ ".nrrd"))
      ∈ (runAcir env inp cTI cInv cTR).1 := by
  rw [runAcir_eq_success env inp cTI cInv cTR hf]
  refine ⟨?_, ?_, ?_, ?_, ?_⟩
  · refine ⟨acirPreTrace env inp ++
      [Event.printPoint inp.fixedPoint,
       Event.printMsg "=================== Cropping =====================",
       Event.runCrop inp.fixedNode.id inp.fixedPoint inp.fixedCropPath,
       Event.loadVolume inp.fixedCropPath inp.freshBase,
       Event.setNodeName inp.freshBase (inp.fixedNode.name ++ "_F_Crop"),
       Event.runCrop inp.movingNode.id inp.movingPoint inp.movingCropPath,
       Event.loadVolume inp.movingCropPath (inp.freshBase + 1),
       Event.setNodeName (inp.freshBase + 1) (inp.movingNode.name ++ "_M_Crop"),
       Event.printMsg "************  Register cropped moving image to cropped fixed image **********************",
       Event.runElastix env.elastixBin inp.fixedCropPath inp.movingCropPath
         (inp.customOut.getD env.defaultOutputPath) (inp.customPars.getD env.defaultParsPath) cTI,
       Event.copyFile (pjoin (inp.customOut.getD env.defaultOutputPath) "TransformParameters.0.txt")
         (pjoin (inp.customOut.getD env.defaultOutputPath) "TransformParametersMod.txt"),
       Event.copyFile (pjoin (inp.customOut.getD env.defaultOutputPath) "TransformParameters.0.txt")
         (pjoin (inp.customOut.getD env.defaultOutputPath) "TransformParametersModInv.txt"),
       Event.readFileLines (pjoin (inp.customOut.getD env.defaultOutputPath) "TransformParametersMod.txt")
         inp.parsLst], [], [],
      [Event.renameFile (pjoin (inp.customOut.getD env.defaultOutputPath) ("deformationField" ++ env.imgType))
         (pjoin (inp.customOut.getD env.defaultOutputPath) (inp.movingNode.name ++ "_dFld" ++ env.imgType)),
       Event.renameFile (pjoin (inp.customOut.getD env.defaultOutputPath) "result.nrrd")
         (pjoin (inp.customOut.getD env.defaultOutputPath) (inp.movingNode.name ++ "_Registered.nrrd")),
       Event.printMsg "************  Load deformation field Transform  **********************",
       Event.loadTransform (pjoin (inp.customOut.getD env.defaultOutputPath) (inp.movingNode.name ++ "_dFld" ++ env.imgType))
         (inp.freshBase + 2),
       Event.setNodeName (inp.freshBase + 2) (inp.movingNode.name ++ "_Transform"),
       Event.loadVolume (pjoin (inp.customOut.getD env.defaultOutputPath) (inp.movingNode.name ++ "_Registered.nrrd"))
         (inp.freshBase + 3),
       Event.printMsg (pjoin (inp.customOut.getD env.defaultOutputPath) (inp.movingNode.name ++ "_Registered.nrrd")),
       Event.setNodeName (inp.freshBase + 3) (inp.movingNode.name ++ "_Registered"),
       Event.removeNode inp.movingNode.id,
       Event.loadVolume (initRun env inp.fixedNode inp.movingNode inp.customOut inp.customPars).movingPath
         (inp.freshBase + 4),
       Event.setNodeName (inp.freshBase + 4)
         (basenameNoExt (initRun env inp.fixedNode inp.movingNode inp.customOut inp.customPars).movingPath),
       exitCodePrint cTI cTR,
       Event.removeTmpNodes [inp.freshBase, inp.freshBase + 1],
       Event.printMsg "================= Cochlea registration is complete  ====================="], ?_⟩
    simp [runAcirSuccess, initRun, List.append_assoc]
  · rcases hfs : inp.fixedNode.storage with _ | fp <;>
      rcases hms : inp.movingNode.storage with _ | mp <;>
        cases hc : (cTI == 0 && cTR == 0) <;>
          simp [runAcirSuccess, acirPreTrace, initRun, hfs, hms, hc, exitCodePrint,
            Event.isInvertCall, List.countP_append, List.countP_cons]
  · rcases hfs : inp.fixedNode.storage with _ | fp <;>
      rcases hms : inp.movingNode.storage with _ | mp <;>
        cases hc : (cTI == 0 && cTR == 0) <;>
          simp [runAcirSuccess, acirPreTrace, initRun, hfs, hms, hc, exitCodePrint,
            Event.isParamWrite, List.countP_append, List.countP_cons]
  · rcases hfs : inp.fixedNode.storage with _ | fp <;>
      rcases hms : inp.movingNode.storage with _ | mp <;>
        cases hc : (cTI == 0 && cTR == 0) <;>
          simp [runAcirSuccess, acirPreTrace, initRun, hfs, hms, hc, exitCodePrint,
            Event.isTransformixCall, List.countP_append, List.countP_cons]
  · simp [runAcirSuccess, acirPreTrace, initRun]

/-- Witness for C1 (amended) at a concrete successful input. -/
theorem C1_witness :
    exInp.fixedPoint.sum ≠ 0 ∧
    (runAcir exEnv exInp 0 0 0).1.countP Event.isInvertCall = 1 :=
  ⟨by decide, (C1_invert_then_rewrite_then_apply exEnv exInp 0 0 0 (by decide)).2.1⟩

/-- Claim C2 counterexample: on a line containing both `"(Size "` and
`"(Origin "`, the rewrite loop produces the Size line (the Size replacement
comes first and destroys the Origin occurrence), so the line, although it
contains `"(Origin "`, is not replaced by an Origin line — the claim's
description fails on this input. -/
theorem C2_counterexample_line_with_both_keys :
    hasSub "(Size " c2BadLine = true ∧
    hasSub "(Origin " c2BadLine = true ∧
    modifyTransform ⟨2, 2, 2⟩ ⟨3, 3, 3⟩ [c2BadLine] = [sizeLine ⟨2, 2, 2⟩] ∧
    ¬ c2Stated ⟨2, 2, 2⟩ ⟨3, 3, 3⟩ [c2BadLine] (modifyTransform ⟨2, 2, 2⟩ ⟨3, 3, 3⟩ [c2BadLine]) := by
  have hm : modifyTransform ⟨2, 2, 2⟩ ⟨3, 3, 3⟩ [c2BadLine] = [sizeLine ⟨2, 2, 2⟩] := by decide
  refine ⟨by decide, by decide, hm, ?_⟩
  intro h
  rw [hm] at h
  rcases h with _ | ⟨hrel, -⟩
  exact absurd (hrel.2.1 (by decide)) (by decide)

/-- Claim C2 (amended): the file written to `TransformParametersModInv.txt`
holds exactly the registration output's lines rewritten as follows — every
line containing `"(Size "` becomes the Size line holding the fixed volume's
image dimensions (this takes precedence: the substituted Size line never
contains `"(Origin "`, so such a line receives no Origin treatment); every
line containing `"(Origin "` but not `"(Size "` becomes the Origin line
holding the fixed origin with each component multiplied by the corresponding
diagonal entry (indices 0, 4, 8) of the flattened direction matrix; every
other line is written through unchanged. -/
theorem C2_rewrite_characterisation (env : Env) (inp : AcirInput) (cTI cInv cTR : Int)
    (hf : inp.fixedPoint.sum ≠ 0)
    (hs : hasSub "(Origin " (sizeLine inp.fixedSize) = false) :
    Event.writeFileLines (pjoin (inp.customOut.getD env.defaultOutputPath) "TransformParametersModInv.txt")
      (modifyTransform inp.fixedSize (fixedOrgOf inp.drs inp.fOrg) inp.parsLst)
      ∈ (runAcir env inp cTI cInv cTR).1 ∧
    modifyTransform inp.fixedSize (fixedOrgOf inp.drs inp.fOrg) inp.parsLst =
      inp.parsLst.map (fun l =>
        if hasSub "(Size " l then sizeLine inp.fixedSize
        else if hasSub "(Origin " l then originLine (fixedOrgOf inp.drs inp.fOrg) else l) ∧
    fixedOrgOf inp.drs inp.fOrg =
      ⟨inp.drs.d0 * inp.fOrg.v0, inp.drs.d4 * inp.fOrg.v1, inp.drs.d8 * inp.fOrg.v2⟩ := by
  refine ⟨?_, ?_, rfl⟩
  · rw [runAcir_eq_success env inp cTI cInv cTR hf]
    simp [runAcirSuccess, initRun]
  · unfold modifyTransform
    apply List.map_congr_left
    intro l _
    unfold modifyLine
    by_cases h1 : hasSub "(Size " l
    · simp [h1, hs]
    · simp [h1]

/-- Witness for C2 (amended) at a concrete successful input. -/
theorem C2_witness :
    exInp.fixedPoint.sum ≠ 0 ∧
    hasSub "(Origin " (sizeLine exInp.fixedSize) = false ∧
    modifyTransform exInp.fixedSize (fixedOrgOf exInp.drs exInp.fOrg) exInp.parsLst =
      exInp.parsLst.map (fun l =>
        if hasSub "(Size " l then sizeLine exInp.fixedSize
        else if hasSub "(Origin " l then originLine (fixedOrgOf exInp.drs exInp.fOrg) else l) :=
  ⟨by decide, by decide,
   (C2_rewrite_characterisation exEnv exInp 0 0 0 (by decide) (by decide)).2.1⟩

lemma dataAppend (s t : String) : (s ++ t).data = s.data ++ t.data := by
  cases s
  cases t
  rfl

lemma append_ne_of_drop_ne {α : Type} (s t : List α)
    (h : t.drop (t.length - s.length) ≠ s) : ∀ l : List α, l ++ s ≠ t := by
  intro l he
  apply h
  have h2 : t.length - s.length = l.length := by
    have h3 := congrArg List.length he
    simp [List.length_append] at h3
    omega
  rw [h2, ← he, List.drop_left]

lemma pjoin_ne (b t : String)
    (h : t.data.drop (t.data.length - ('/' :: b.data).length) ≠ '/' :: b.data) :
    ∀ c : String, pjoin c b ≠ t := by
  intro c he
  apply append_ne_of_drop_ne ('/' :: b.data) t.data h c.data
  have h1 : (pjoin c b).data = c.data ++ ('/' :: b.data) := by
    unfold pjoin
    rw [dataAppend, dataAppend, List.append_assoc]
    rfl
  rw [← h1]
  exact congrArg String.data he

/-- Claim C7 (code bug at source lines 509-512): `runTest` does download the
two sample cochlea volumes into the cache, but immediately afterwards the
image path and point variables are reassigned to hard-coded local paths, so
the registration pipeline is run on those — never on the downloaded volumes,
whatever the cache directory is. -/
theorem C7_test_runs_on_hardcoded_paths (cacheDir : String) :
    runTestArgs cacheDir =
      { fixedImgPath := "/media/ibr/h25_2TB_C/ia_work/Cochlea2020/vsReg/srcImages/P100051_MR.nrrd"
        movingImgPath := "/media/ibr/h25_2TB_C/ia_work/Cochlea2020/vsReg/srcImages/P100051_DV_R_a.nrrd"
        fixedPoint := [165, 240, 34]
        movingPoint := [348, 230, 69] } ∧
    (runTestArgs cacheDir).fixedImgPath ≠ runTestDownloadedFixedPath cacheDir ∧
    (runTestArgs cacheDir).movingImgPath ≠ runTestDownloadedMovingPath cacheDir := by
  refine ⟨rfl, ?_, ?_⟩
  · intro he
    exact pjoin_ne "P100001_DV_L_a.nrrd"
      "/media/ibr/h25_2TB_C/ia_work/Cochlea2020/vsReg/srcImages/P100051_MR.nrrd"
      (by decide) cacheDir he.symm
  · intro he
    exact pjoin_ne "P100001_DV_L_b.nrrd"
      "/media/ibr/h25_2TB_C/ia_work/Cochlea2020/vsReg/srcImages/P100051_DV_R_a.nrrd"
      (by decide) cacheDir he.symm

@[simp] lemma applyEvent_clearOutput (sc : List Node) (p : String) :
    applyEvent sc (Event.clearOutput p) = sc := rfl

@[simp] lemma applyEvent_printMsg (sc : List Node) (m : String) :
    applyEvent sc (Event.printMsg m) = sc := rfl

@[simp] lemma applyEvent_printPoint (sc : List Node) (p : Pt3) :
    applyEvent sc (Event.printPoint p) = sc := rfl

@[simp] lemma applyEvent_saveNode (sc : List Node) (i : Nat) (p : String) :
    applyEvent sc (Event.saveNode i p) = sc := rfl

@[simp] lemma applyEvent_copyFile (sc : List Node) (a b : String) :
    applyEvent sc (Event.copyFile a b) = sc := rfl

@[simp] lemma applyEvent_runCrop (sc : List Node) (i : Nat) (p : Pt3) (r : String) :
    applyEvent sc (Event.runCrop i p r) = sc := rfl

@[simp] lemma applyEvent_runElastix (sc : List Node) (a b c d e : String) (k : Int) :
    applyEvent sc (Event.runElastix a b c d e k) = sc := rfl

@[simp] lemma applyEvent_readFileLines (sc : List Node) (p : String) (ls : List String) :
    applyEvent sc (Event.readFileLines p ls) = sc := rfl

@[simp] lemma applyEvent_invertTransform (sc : List Node) (a b c : String) (k : Int) :
    applyEvent sc (Event.invertTransform a b c k) = sc := rfl

@[simp] lemma applyEvent_writeFileLines (sc : List Node) (p : String) (ls : List String) :
    applyEvent sc (Event.writeFileLines p ls) = sc := rfl

@[simp] lemma applyEvent_runTransformix (sc : List Node) (a b c d : String) (k : Int) :
    applyEvent sc (Event.runTransformix a b c d k) = sc := rfl

@[simp] lemma applyEvent_renameFile (sc : List Node) (a b : String) :
    applyEvent sc (Event.renameFile a b) = sc := rfl

@[simp] lemma applyEvent_exitCodePrint (sc : List Node) (a b : Int) :
    applyEvent sc (exitCodePrint a b) = sc := by
  unfold exitCodePrint
  split <;> rfl

@[simp] lemma untouchedBy_exitCodePrint (n : Node) (a b : Int) :
    untouchedBy n (exitCodePrint a b) := by
  unfold exitCodePrint
  split <;> trivial

lemma mem_applyEvent (n : Node) (sc : List Node) (e : Event)
    (hn : n ∈ sc) (h : untouchedBy n e) : n ∈ applyEvent sc e := by
  cases e <;> try exact hn
  case loadVolume p i => exact List.mem_append_left _ hn
  case loadTransform p i => exact List.mem_append_left _ hn
  case setNodeName i nm =>
    have hmap := List.mem_map_of_mem
      (fun m => if m.id == i then { m with name := nm } else m) hn
    rcases h with h | h
    · have hb : (n.id == i) = false := by simpa using h
      simpa [applyEvent, hb] using hmap
    · by_cases hb : n.id = i
      · have hb' : (n.id == i) = true := by simpa using hb
        subst h
        simpa [applyEvent, hb'] using hmap
      · have hb' : (n.id == i) = false := by simpa using hb
        simpa [applyEvent, hb'] using hmap
  case removeNode i =>
    exact List.mem_filter.mpr ⟨hn, by simpa [untouchedBy] using h⟩
  case removeTmpNodes ids =>
    exact List.mem_filter.mpr ⟨hn, by simpa [untouchedBy] using h⟩

lemma mem_runScene (n : Node) (sc : List Node) (tr : List Event)
    (hn : n ∈ sc) (h : ∀ e ∈ tr, untouchedBy n e) : n ∈ runScene sc tr := by
  induction tr generalizing sc with
  | nil => exact hn
  | cons e tr ih =>
      exact ih (applyEvent sc e)
        (mem_applyEvent n sc e hn (h e (by simp)))
        (fun e' he' => h e' (by simp [he']))

@[simp] lemma loadsAvoid_exitCodePrint (i : Nat) (a b : Int) :
    loadsAvoid i (exitCodePrint a b) := by
  unfold exitCodePrint
  split <;> trivial

lemma noId_applyEvent (i : Nat) (sc : List Node) (e : Event)
    (h : NoId i sc) (hl : loadsAvoid i e) : NoId i (applyEvent sc e) := by
  cases e <;> try exact h
  case loadVolume p j =>
    intro n hn
    rcases List.mem_append.mp hn with hn | hn
    · exact h n hn
    · have : n = ⟨j, basenameNoExt p, some p⟩ := by simpa using hn
      subst this
      exact hl
  case loadTransform p j =>
    intro n hn
    rcases List.mem_append.mp hn with hn | hn
    · exact h n hn
    · have : n = ⟨j, basenameNoExt p, some p⟩ := by simpa using hn
      subst this
      exact hl
  case setNodeName j nm =>
    intro n hn
    rcases List.mem_map.mp hn with ⟨m, hm, rfl⟩
    have : (if m.id == j then { m with name := nm } else m).id = m.id := by
      split <;> rfl
    rw [this]
    exact h m hm
  case removeNode j =>
    intro n hn
    exact h n (List.mem_filter.mp hn).1
  case removeTmpNodes ids =>
    intro n hn
    exact h n (List.mem_filter.mp hn).1

lemma noId_remove (i : Nat) (sc : List Node) :
    NoId i (applyEvent sc (Event.removeNode i)) := by
  intro n hn
  have h2 := (List.mem_filter.mp hn).2
  simpa using h2

set_option maxHeartbeats 2000000 in
lemma acir_scene_effects (env : Env) (inp : AcirInput) (cTI cInv cTR : Int) (s0 : List Node)
    (hf : inp.fixedPoint.sum ≠ 0)
    (hfx : inp.fixedNode ∈ s0) (hmv : inp.movingNode ∈ s0)
    (hlt : ∀ n ∈ s0, n.id < inp.freshBase)
    (hne : inp.fixedNode.id ≠ inp.movingNode.id) :
    NoId inp.movingNode.id (runScene s0 (runAcir env inp cTI cInv cTR).1) ∧
    inp.fixedNode ∈ runScene s0 (runAcir env inp cTI cInv cTR).1 ∧
    (⟨inp.freshBase + 4,
      basenameNoExt (initRun env inp.fixedNode inp.movingNode inp.customOut inp.customPars).movingPath,
      some (initRun env inp.fixedNode inp.movingNode inp.customOut inp.customPars).movingPath⟩ : Node) ∈
      runScene s0 (runAcir env inp cTI cInv cTR).1 := by
  have hmlt : inp.movingNode.id < inp.freshBase := hlt _ hmv
  have hflt : inp.fixedNode.id < inp.freshBase := hlt _ hfx
  have h0 : inp.fixedNode.id ≠ inp.freshBase := by omega
  have h1 : inp.fixedNode.id ≠ inp.freshBase + 1 := by omega
  have h2 : inp.fixedNode.id ≠ inp.freshBase + 2 := by omega
  have h3 : inp.fixedNode.id ≠ inp.freshBase + 3 := by omega
  have h4 : inp.fixedNode.id ≠ inp.freshBase + 4 := by omega
  rw [runAcir_eq_success env inp cTI cInv cTR hf]
  refine ⟨?_, ?_, ?_⟩
  · rcases hfs : inp.fixedNode.storage with _ | fp <;>
      rcases hms : inp.movingNode.storage with _ | mp <;>
      · simp only [runAcirSuccess, acirPreTrace, initRun, hfs, hms, runScene,
          List.append_assoc, List.cons_append, List.nil_append,
          List.foldl_cons, List.foldl_nil,
          applyEvent_clearOutput, applyEvent_printMsg, applyEvent_printPoint,
          applyEvent_saveNode, applyEvent_copyFile, applyEvent_runCrop,
          applyEvent_runElastix, applyEvent_readFileLines, applyEvent_invertTransform,
          applyEvent_writeFileLines, applyEvent_runTransformix, applyEvent_renameFile,
          applyEvent_exitCodePrint]
        refine noId_applyEvent _ _ _
          (noId_applyEvent _ _ _ (noId_applyEvent _ _ _ (noId_remove _ _) ?_) ?_) ?_
        · show inp.freshBase + 4 ≠ inp.movingNode.id
          omega
        · trivial
        · trivial
  · apply mem_runScene _ _ _ hfx
    cases hc : (cTI == 0 && cTR == 0) <;>
      rcases hfs : inp.fixedNode.storage with _ | fp <;>
        rcases hms : inp.movingNode.storage with _ | mp <;>
          simp [runAcirSuccess, acirPreTrace, initRun, hfs, hms, hc, exitCodePrint,
            untouchedBy, List.forall_mem_append, List.forall_mem_cons,
            hne, h0, h1, h2, h3, h4]
  · rcases hfs : inp.fixedNode.storage with _ | fp <;>
      rcases hms : inp.movingNode.storage with _ | mp <;>
      · simp only [runAcirSuccess, acirPreTrace, initRun, hfs, hms, runScene,
          List.append_assoc, List.cons_append, List.nil_append,
          List.foldl_cons, List.foldl_nil,
          applyEvent_clearOutput, applyEvent_printMsg, applyEvent_printPoint,
          applyEvent_saveNode, applyEvent_copyFile, applyEvent_runCrop,
          applyEvent_runElastix, applyEvent_readFileLines, applyEvent_invertTransform,
          applyEvent_writeFileLines, applyEvent_runTransformix, applyEvent_renameFile,
          applyEvent_exitCodePrint]
        refine mem_applyEvent _ _ _ (mem_applyEvent _ _ _ ?_ ?_) ?_
        · exact List.mem_append_right _ (List.mem_singleton.mpr rfl)
        · exact Or.inr rfl
        · show ([inp.freshBase, inp.freshBase + 1].contains (inp.freshBase + 4)) = false
          simp

set_option maxHeartbeats 2000000 in
lemma run_scene_effects (env : Env) (rinp : RunInput) (c1 c2 : Int) (s1 : List Node)
    (hfx : rinp.fixedNode ∈ s1) (hmv : rinp.movingNode ∈ s1)
    (hlt : ∀ n ∈ s1, n.id < rinp.freshBase)
    (hne : rinp.fixedNode.id ≠ rinp.movingNode.id) :
    NoId rinp.movingNode.id (runScene s1 (run env rinp c1 c2).1) ∧
    rinp.fixedNode ∈ runScene s1 (run env rinp c1 c2).1 ∧
    (⟨rinp.freshBase + 2,
      basenameNoExt (initRun env rinp.fixedNode rinp.movingNode rinp.customOut rinp.customPars).movingPath,
      some (initRun env rinp.fixedNode rinp.movingNode rinp.customOut rinp.customPars).movingPath⟩ : Node) ∈
      runScene s1 (run env rinp c1 c2).1 := by
  have hmlt : rinp.movingNode.id < rinp.freshBase := hlt _ hmv
  have hflt : rinp.fixedNode.id < rinp.freshBase := hlt _ hfx
  have h0 : rinp.fixedNode.id ≠ rinp.freshBase := by omega
  have h1 : rinp.fixedNode.id ≠ rinp.freshBase + 1 := by omega
  have h2 : rinp.fixedNode.id ≠ rinp.freshBase + 2 := by omega
  refine ⟨?_, ?_, ?_⟩
  · rcases hfs : rinp.fixedNode.storage with _ | fp <;>
      rcases hms : rinp.movingNode.storage with _ | mp <;>
      · simp only [run, initRun, hfs, hms, runScene,
          List.append_assoc, List.cons_append, List.nil_append,
          List.foldl_cons, List.foldl_nil,
          applyEvent_clearOutput, applyEvent_printMsg, applyEvent_printPoint,
          applyEvent_saveNode, applyEvent_copyFile, applyEvent_runCrop,
          applyEvent_runElastix, applyEvent_readFileLines, applyEvent_invertTransform,
          applyEvent_writeFileLines, applyEvent_runTransformix, applyEvent_renameFile,
          applyEvent_exitCodePrint]
        refine noId_applyEvent _ _ _
          (noId_applyEvent _ _ _ (noId_applyEvent _ _ _ (noId_remove _ _) ?_) ?_) ?_
        · show rinp.freshBase + 2 ≠ rinp.movingNode.id
          omega
        · trivial
        · trivial
  · apply mem_runScene _ _ _ hfx
    cases hc : (c1 == 0 && c2 == 0) <;>
      rcases hfs : rinp.fixedNode.storage with _ | fp <;>
        rcases hms : rinp.movingNode.storage with _ | mp <;>
          simp [run, initRun, hfs, hms, hc, exitCodePrint, untouchedBy,
            List.forall_mem_append, List.forall_mem_cons, hne, h0, h1, h2]
  · rcases hfs : rinp.fixedNode.storage with _ | fp <;>
      rcases hms : rinp.movingNode.storage with _ | mp <;>
      · simp only [run, initRun, hfs, hms, runScene,
          List.append_assoc, List.cons_append, List.nil_append,
          List.foldl_cons, List.foldl_nil,
          applyEvent_clearOutput, applyEvent_printMsg, applyEvent_printPoint,
          applyEvent_saveNode, applyEvent_copyFile, applyEvent_runCrop,
          applyEvent_runElastix, applyEvent_readFileLines, applyEvent_invertTransform,
          applyEvent_writeFileLines, applyEvent_runTransformix, applyEvent_renameFile,
          applyEvent_exitCodePrint]
        refine mem_applyEvent _ _ _ (mem_applyEvent _ _ _ ?_ ?_) ?_
        · exact List.mem_append_right _ (List.mem_singleton.mpr rfl)
        · exact Or.inr rfl
        · show (([] : List Nat).contains (rinp.freshBase + 2)) = false
          simp

/-- Claim C10: every successful run of `run` or `runAcir` removes the input
moving volume node from the scene (afterwards no scene node carries its
identity) and loads in its place a fresh node whose storage file is the
moving image's original file; the fixed volume node is still in the scene,
untouched.  `removeTmpsFiles` (VisSimCommon, not under `src/`) is modelled
from the spec as removing only the run's temporary cropped nodes. -/
theorem C10_moving_node_replaced_fixed_untouched (env : Env) (inp : AcirInput)
    (rinp : RunInput) (cTI cInv cTR c1 c2 : Int) (s0 s1 : List Node)
    (hf : inp.fixedPoint.sum ≠ 0)
    (hfx : inp.fixedNode ∈ s0) (hmv : inp.movingNode ∈ s0)
    (hlt : ∀ n ∈ s0, n.id < inp.freshBase)
    (hne : inp.fixedNode.id ≠ inp.movingNode.id)
    (hfx1 : rinp.fixedNode ∈ s1) (hmv1 : rinp.movingNode ∈ s1)
    (hlt1 : ∀ n ∈ s1, n.id < rinp.freshBase)
    (hne1 : rinp.fixedNode.id ≠ rinp.movingNode.id) :
    (NoId inp.movingNode.id (runScene s0 (runAcir env inp cTI cInv cTR).1) ∧
     inp.fixedNode ∈ runScene s0 (runAcir env inp cTI cInv cTR).1 ∧
     (⟨inp.freshBase + 4,
       basenameNoExt (initRun env inp.fixedNode inp.movingNode inp.customOut inp.customPars).movingPath,
       some (initRun env inp.fixedNode inp.movingNode inp.customOut inp.customPars).movingPath⟩ : Node) ∈
       runScene s0 (runAcir env inp cTI cInv cTR).1) ∧
    (NoId rinp.movingNode.id (runScene s1 (run env rinp c1 c2).1) ∧
     rinp.fixedNode ∈ runScene s1 (run env rinp c1 c2).1 ∧
     (⟨rinp.freshBase + 2,
       basenameNoExt (initRun env rinp.fixedNode rinp.movingNode rinp.customOut rinp.customPars).movingPath,
       some (initRun env rinp.fixedNode rinp.movingNode rinp.customOut rinp.customPars).movingPath⟩ : Node) ∈
       runScene s1 (run env rinp c1 c2).1) :=
  ⟨acir_scene_effects env inp cTI cInv cTR s0 hf hfx hmv hlt hne,
   run_scene_effects env rinp c1 c2 s1 hfx1 hmv1 hlt1 hne1⟩

/-- Witness for C10 at a concrete scene holding the two input volumes. -/
theorem C10_witness :
    exInp.fixedPoint.sum ≠ 0 ∧
    NoId exInp.movingNode.id
      (runScene [exFixedNode, exMovingNode] (runAcir exEnv exInp 0 0 0).1) ∧
    exInp.fixedNode ∈ runScene [exFixedNode, exMovingNode] (runAcir exEnv exInp 0 0 0).1 :=
  ⟨by decide,
   (C10_moving_node_replaced_fixed_untouched exEnv exInp exRunInp 0 0 0 0 0
      [exFixedNode, exMovingNode] [exFixedNode, exMovingNode] (by decide)
      (by decide) (by decide) (by decide) (by decide)
      (by decide) (by decide) (by decide) (by decide)).1.1,
   (C10_moving_node_replaced_fixed_untouched exEnv exInp exRunInp 0 0 0 0 0
      [exFixedNode, exMovingNode] [exFixedNode, exMovingNode] (by decide)
      (by decide) (by decide) (by decide) (by decide)
      (by decide) (by decide) (by decide) (by decide)).1.2.1⟩

end CochleaReg
